import Mathlib

/-!
Verification of the specification of the pi-skills repository against a shallow
embedding of its JavaScript sources.

The embedding covers:
* the progressive image resizer and data-URI builder of
  `src/linear/linear-api.js` (`resizeImageToFitSize`, `fileToBase64DataUri`);
* the cost ledgers of `src/nano-banana/generate.js` and
  `src/openai-image/generate.js` (record, trim, reset, pricing);
* the argument-parsing loops and top-level control flow of the two
  image-generation scripts.

JavaScript numbers are modelled as `ℚ` (costs) or `Nat` (byte counts,
pixel widths); `Math.floor(w * 0.8)` becomes `w * 8 / 10` in `Nat`, which
agrees with the IEEE-double computation on every width reachable from the
initial 800px. JS `undefined` is modelled as `Option.none`; JS truthiness of
strings (`""` and `undefined` are falsy) is `jsTruthy`. Byte buffers are
`List Nat`. The Sharp encoder is an explicit function parameter, since its
output is outside the program.
-/

namespace PiSkills

/-- Byte buffers (`Buffer` in node). -/
abbrev Buffer := List Nat

/-- JS truthiness for an optional string: `undefined` and `""` are falsy. -/
def jsTruthy : Option String → Bool
  | none => false
  | some s => s ≠ ""

/-- JS `a || b` on optional strings (`undefined` and `""` are falsy). -/
def jsOr (a b : Option String) : Option String :=
  match a with
  | none => b
  | some s => if s = "" then b else some s

/-- Models `list.includes(x)` where `x` may be `undefined` (never a member). -/
def optMem (o : Option String) (l : List String) : Bool :=
  match o with
  | none => false
  | some s => l.contains s

/-- Whether the character list `p` leads (i.e. starts) the character list `s`. -/
def listLeads : List Char → List Char → Bool
  | [], _ => true
  | _ :: _, [] => false
  | a :: as, b :: bs => a = b && listLeads as bs

/-- JS `s.startsWith(p)`, via the underlying character lists. -/
def strLeads (p s : String) : Bool := listLeads p.data s.data

/-! ## Image formats and the progressive resizer (`src/linear/linear-api.js`) -/

/-- Output encodings `sharp` is asked for in `resizeImageToFitSize`. -/
inductive ImgFormat where
  | png
  | jpeg
  | webp
deriving DecidableEq

/-- The options one resize attempt passes to sharp (lines 345-364):
`resize(width, null, { withoutEnlargement: true, fit: inside })` followed by
a format-specific encoder at `quality`. -/
structure EncodeParams where
  width : Nat
  quality : Nat
  format : ImgFormat
  fitInside : Bool
  withoutEnlargement : Bool
deriving DecidableEq

/-- Format selection of `resizeImageToFitSize` (lines 350-364): `.png`
keeps PNG, `.jpg`/`.jpeg` keep JPEG, `.webp` keeps WebP, and every other
extension is re-encoded as JPEG. -/
def chooseFormat (ext : String) : ImgFormat :=
  if ext = ".png" then ImgFormat.png
  else if ext = ".jpg" ∨ ext = ".jpeg" then ImgFormat.jpeg
  else if ext = ".webp" then ImgFormat.webp
  else ImgFormat.jpeg

/-- The parameter update after a failed attempt (lines 376-381):
`attempt < 4` shrinks width by 20% (floored); later attempts shrink width by
10% and drop quality by 15 points with a floor of 30. -/
def stepWQ (attempt w q : Nat) : Nat × Nat :=
  if attempt < 4 then (w * 8 / 10, q) else (w * 9 / 10, max 30 (q - 15))

/-- Width and quality used by attempt `k` (attempt 0 starts at 800px, 80%). -/
def attemptWQ : Nat → Nat × Nat
  | 0 => (800, 80)
  | k + 1 => stepWQ k (attemptWQ k).1 (attemptWQ k).2

/-- The attempt loop of `resizeImageToFitSize` (lines 343-387). `fuel` is the
number of remaining iterations (the source runs `attempt = 0 .. 7`), `last`
is the JS `buffer` variable holding the most recent encoding, and the second
component of the result counts encoder invocations. After the loop the source
returns `buffer` — the output of the last attempt — if it exists, else throws. -/
def resizeLoop (enc : EncodeParams → Except String Buffer) (fmt : ImgFormat)
    (targetBytes : Nat) :
    Nat → Nat → Nat → Nat → Option Buffer → Nat → Except String Buffer × Nat
  | 0, _, _, _, last, done =>
    (match last with
     | some b => Except.ok b
     | none => Except.error "Unable to resize image to target size", done)
  | fuel + 1, attempt, w, q, _, done =>
    match enc ⟨w, q, fmt, true, true⟩ with
    | Except.error e => (Except.error e, done + 1)
    | Except.ok buf =>
      if buf.length ≤ targetBytes then (Except.ok buf, done + 1)
      else
        resizeLoop enc fmt targetBytes fuel (attempt + 1)
          (stepWQ attempt w q).1 (stepWQ attempt w q).2 (some buf) (done + 1)

/-- Models `resizeImageToFitSize(filePath, targetSizeKB = 90)` (lines 325-396).
Here `sharpAvailable` models whether the dynamic import of sharp succeeds; when it does
not, the function throws before any attempt. The encoder `enc` stands for the
sharp pipeline applied to the bytes of the original file. -/
def resizeImageToFitSize (sharpAvailable : Bool)
    (enc : EncodeParams → Except String Buffer) (ext : String)
    (targetSizeKB : Nat := 90) : Except String Buffer × Nat :=
  if sharpAvailable then
    resizeLoop enc (chooseFormat ext) (targetSizeKB * 1024) 8 0 800 80 none 0
  else
    (Except.error "Sharp not available. Install with: npm install sharp", 0)

/-- A concrete encoder used to probe `resizeImageToFitSize`: every attempt
stays over a zero-byte budget, and only the 237px attempt (the eighth and
last of the schedule) yields a 3-byte buffer while every earlier attempt
yields a 2-byte one. -/
def encEx : EncodeParams → Except String Buffer :=
  fun p => Except.ok (List.replicate (if p.width = 237 then 3 else 2) 0)

/-! ## Data URIs and base64 (`fileToBase64DataUri`, lines 403-459) -/

/-- The `mimeTypes` table of `fileToBase64DataUri` (lines 410-419); lookup of
any other extension yields the fallback `application/octet-stream`. -/
def mimeType (ext : String) : String :=
  if ext = ".png" then "image/png"
  else if ext = ".jpg" then "image/jpeg"
  else if ext = ".jpeg" then "image/jpeg"
  else if ext = ".gif" then "image/gif"
  else if ext = ".webp" then "image/webp"
  else if ext = ".svg" then "image/svg+xml"
  else "application/octet-stream"

/-- Base64 encoding of a byte buffer as the list of emitted 6-bit values;
here `none` is a padding character. Models the base64 rendering of `Buffer.toString`. -/
def encB64 : Buffer → List (Option Nat)
  | [] => []
  | [b1] => [some (b1 / 4), some (b1 % 4 * 16), none, none]
  | [b1, b2] => [some (b1 / 4), some (b1 % 4 * 16 + b2 / 16), some (b2 % 16 * 4), none]
  | b1 :: b2 :: b3 :: rest =>
    some (b1 / 4) :: some (b1 % 4 * 16 + b2 / 16) :: some (b2 % 16 * 4 + b3 / 64)
      :: some (b3 % 64) :: encB64 rest

/-- Base64 decoding, the inverse reading of `encB64`. -/
def decB64 : List (Option Nat) → Buffer
  | [some s1, some s2, none, none] => [s1 * 4 + s2 / 16]
  | [some s1, some s2, some s3, none] => [s1 * 4 + s2 / 16, s2 % 16 * 16 + s3 / 4]
  | some s1 :: some s2 :: some s3 :: some s4 :: rest =>
    (s1 * 4 + s2 / 16) :: (s2 % 16 * 16 + s3 / 4) :: (s3 % 4 * 64 + s4) :: decB64 rest
  | _ => []

/-- A produced data URI `data:<mime>;base64,<payload>`. -/
structure DataUri where
  mime : String
  payloadB64 : List (Option Nat)
deriving DecidableEq

/-- Leading part of the install-Sharp fallback message thrown by
`fileToBase64DataUri` (lines 436-443). `sizeDisplay` stands for the
interpolated `(fileSizeKB / 1024).toFixed(1)` rendering of the file size. -/
def sharpMsgPre (sizeDisplay : String) : String :=
  "Image file is " ++ sizeDisplay ++ "MB. To auto-resize images, install Sharp:\n\n"

/-- Trailing part of the install-Sharp fallback message (lines 440-443). -/
def sharpMsgPost : String :=
  "\n\nOr manually:\n1. " ++ "Resize image to smaller dimensions" ++ "  \n2. "
    ++ "Host externally" ++ " and use --attachment \"https://url\"\n3. Or manually drag and drop in Linear web interface"

/-- The install-Sharp fallback message of lines 436-443. -/
def sharpInstallMsg (sizeDisplay : String) : String :=
  sharpMsgPre sizeDisplay ++ "npm install sharp" ++ sharpMsgPost

/-- The resize-failed fallback message of lines 445-448. -/
def resizeFailMsg (inner : String) : String :=
  "Failed to resize image: " ++ inner ++ ". Please:\n1. Try a different image format\n2. Host externally and use --attachment \"https://url\" \n3. Or manually drag and drop in Linear web interface"

/-- Models `fileToBase64DataUri(filePath)` (lines 403-459). `sizeBytes` is
`fs.statSync(filePath).size`; the source compares `size / 1024 <= 90`, which
for natural byte counts is exactly `sizeBytes ≤ 90 * 1024`. `content` is the
byte contents of the file, `sizeDisplay` the formatted megabyte count used in the
fallback message. The second component counts resize attempts performed. The
outer `catch` prepends the failed-to-convert text. -/
def fileToBase64DataUri (sharpAvailable : Bool)
    (enc : EncodeParams → Except String Buffer) (sizeBytes : Nat)
    (content : Buffer) (ext : String) (sizeDisplay : String) :
    Except String DataUri × Nat :=
  if sizeBytes ≤ 90 * 1024 then
    (Except.ok ⟨mimeType ext, encB64 content⟩, 0)
  else
    match resizeImageToFitSize sharpAvailable enc ext 90 with
    | (Except.ok buf, n) => (Except.ok ⟨mimeType ext, encB64 buf⟩, n)
    | (Except.error e, n) =>
      if sharpAvailable then
        (Except.error ("Failed to convert file to base64: " ++ resizeFailMsg e), n)
      else
        (Except.error ("Failed to convert file to base64: " ++ sharpInstallMsg sizeDisplay), n)

/-! ## Cost ledgers (`src/nano-banana/generate.js`, `src/openai-image/generate.js`) -/

/-- The persistent ledger JSON file of either image-generation skill.
`α` is the shape of one history record (the two scripts differ in fields). -/
structure Ledger (α : Type) where
  totalCost : ℚ
  imageCount : Nat
  history : List α

/-- The fresh ledger produced by `loadCostData` when the file is absent or
unparsable, and the state written by `resetCosts`. -/
def resetLedgerData {α : Type} : Ledger α := ⟨0, 0, []⟩

/-- Models `if (history.length > 100) history = history.slice(-100)`: keep only the
most recent 100 entries (both scripts, after pushing a new record). -/
def trimHistory {α : Type} (h : List α) : List α :=
  if h.length > 100 then h.drop (h.length - 100) else h

/-- The cost-tracking block of `src/nano-banana/generate.js` lines 526-545:
add the generation cost, count one image, push one record, trim to 100. -/
def nanoRecordGeneration {α : Type} (cost : ℚ) (entry : α) (st : Ledger α) :
    Ledger α :=
  { totalCost := st.totalCost + cost
    imageCount := st.imageCount + 1
    history := trimHistory (st.history ++ [entry]) }

/-- The cost-tracking block of `src/openai-image/generate.js` lines 439-459:
add the generation cost, count `outputPaths.length` images, push one record,
trim to 100. -/
def openaiRecordGeneration {α : Type} (cost : ℚ) (numSaved : Nat) (entry : α)
    (st : Ledger α) : Ledger α :=
  { totalCost := st.totalCost + cost
    imageCount := st.imageCount + numSaved
    history := trimHistory (st.history ++ [entry]) }

/-- Models `resetCosts()` (both scripts): write back a zeroed ledger. -/
def resetCosts {α : Type} (_st : Ledger α) : Ledger α := ⟨0, 0, []⟩

/-- N nano-banana generations run from a fresh ledger; each list element is a
per-call cost and its history record. -/
def runNanoGenerations {α : Type} (gens : List (ℚ × α)) : Ledger α :=
  gens.foldl (fun st g => nanoRecordGeneration g.1 g.2 st) resetLedgerData

/-- N openai-image generations run from a fresh ledger; each element is the
per-call cost, the number of images saved by that call, and its record. -/
def runOpenaiGenerations {α : Type} (gens : List (ℚ × Nat × α)) : Ledger α :=
  gens.foldl (fun st g => openaiRecordGeneration g.1 g.2.1 g.2.2 st) resetLedgerData

/-! ### Pricing (the per-call cost values fed into the ledgers) -/

/-- Models `getGenerationCost(model, imageSize)` in `src/nano-banana/generate.js`
(lines 262-267) with `PRICING` of lines 231-238; an unknown pro size falls
back to the 1K price via `||`. -/
def getGenerationCost (model : String) (imageSize : Option String) : ℚ :=
  if model = "flash" then 0.0315
  else
    match imageSize with
    | some "1K" => 0.039
    | some "2K" => 0.056
    | some "4K" => 0.08
    | _ => 0.039

/-- One row of `TOKEN_PRICING` in `src/openai-image/generate.js`. -/
structure TokenPricing where
  inputRate : ℚ
  low : ℚ
  medium : ℚ
  high : ℚ
  auto : ℚ

/-- Models `TOKEN_PRICING` (lines 13-26). -/
def tokenPricing (model : String) : Option TokenPricing :=
  if model = "gpt-image-1" then some ⟨5, 20, 40, 80, 40⟩
  else if model = "gpt-image-1.5" then some ⟨8, 30, 60, 120, 60⟩
  else if model = "gpt-image-1-mini" then some ⟨2.5, 10, 20, 40, 20⟩
  else none

/-- Models `pricing.output[qualityKey] || pricing.output.auto` with
`qualityKey = quality || "auto"`: unknown or missing keys fall back to the
`auto` rate. -/
def outputRate (p : TokenPricing) (quality : Option String) : ℚ :=
  match quality with
  | some "low" => p.low
  | some "medium" => p.medium
  | some "high" => p.high
  | _ => p.auto

/-- Token counts of the `usage` object of the API response. -/
structure Usage where
  input_tokens : Nat
  output_tokens : Nat

/-- Models `calculateCostFromUsage(model, quality, usage)` (lines 61-73); returns
`none` (JS `null`) when the model has no token pricing. -/
def calculateCostFromUsage (model : String) (quality : Option String)
    (usage : Usage) : Option ℚ :=
  match tokenPricing model with
  | none => none
  | some p =>
    some ((usage.input_tokens : ℚ) / 1000000 * p.inputRate
      + (usage.output_tokens : ℚ) / 1000000 * outputRate p quality)

/-- Models `getDalleCost(model, quality, size, numImages)` (lines 76-84) with
`DALLE_PRICING` of lines 29-37: per-image price looked up by quality tier and
size, falling back to the 1024x1024 price; `dall-e-2` has no `hd` tier, so the
lookup misses and the function returns 0; unknown models return 0. -/
def getDalleCost (model : String) (quality : Option String)
    (size : Option String) (numImages : Nat) : ℚ :=
  let hd := quality = some "hd"
  if model = "dall-e-3" then
    if hd then
      (match size with
       | some "1024x1024" => (0.08 : ℚ)
       | some "1024x1792" => 0.12
       | some "1792x1024" => 0.12
       | _ => 0.08) * numImages
    else
      (match size with
       | some "1024x1024" => (0.04 : ℚ)
       | some "1024x1792" => 0.08
       | some "1792x1024" => 0.08
       | _ => 0.04) * numImages
  else if model = "dall-e-2" then
    if hd then 0
    else
      (match size with
       | some "1024x1024" => (0.02 : ℚ)
       | some "512x512" => 0.018
       | some "256x256" => 0.016
       | _ => 0.02) * numImages
  else 0

/-- Cost selection of `src/openai-image/generate.js` lines 427-437: when the
response carries `usage` and the model is not a DALL-E model, cost comes from
token usage (a `null` result coerces to 0 in the later `+=`); otherwise the
per-image DALL-E pricing applies. `dataQuality`/`dataSize` are the values the
API echoed back, `quality`/`size` the requested ones. -/
def openaiGenerationCost (model : String) (dataQuality quality : Option String)
    (usage : Option Usage) (dataSize size : Option String) (numSaved : Nat) : ℚ :=
  match usage with
  | some u =>
    if strLeads "dall-e" model then getDalleCost model quality (jsOr dataSize size) numSaved
    else (calculateCostFromUsage model (jsOr dataQuality quality) u).getD 0
  | none => getDalleCost model quality (jsOr dataSize size) numSaved

/-! ## Argument parsing (`src/nano-banana/generate.js` lines 326-350,
`src/openai-image/generate.js` lines 150-182)

A flag that takes a value reads `args[++i]`; past the end of the array that
read yields `undefined`, modelled as `none`. Option-valued fields therefore
start at `some <initial>` and become `none` only through such a read. -/

/-- Parse state of the nano-banana script (initialisations of lines 316-321). -/
structure NanoConfig where
  prompt : String := ""
  outputPath : Option String := some ""
  inputPath : Option String := some ""
  aspectRatio : Option String := some "1:1"
  model : Option String := some "flash"
  imageSize : Option String := some "1K"
deriving DecidableEq

/-- The parse loop exits early for `-h`/`--help`, `--costs`, `--reset-costs`
(each prints and calls `process.exit(0)`). -/
inductive ParseExit where
  | helpShown
  | costsShown
  | costsReset
deriving DecidableEq

/-- The nano-banana argument loop (lines 326-350), scanning left to right:
recognized value flags consume the following argument, info flags exit the
process with code 0, a non-dash argument becomes the prompt, and anything
else falls through without effect. -/
def nanoParseLoop (cfg : NanoConfig) : List String → ParseExit ⊕ NanoConfig
  | [] => Sum.inr cfg
  | arg :: rest =>
    if arg = "-o" ∨ arg = "--output" then
      match rest with
      | v :: rest2 => nanoParseLoop { cfg with outputPath := some v } rest2
      | [] => nanoParseLoop { cfg with outputPath := none } []
    else if arg = "-i" ∨ arg = "--input" then
      match rest with
      | v :: rest2 => nanoParseLoop { cfg with inputPath := some v } rest2
      | [] => nanoParseLoop { cfg with inputPath := none } []
    else if arg = "--aspect" then
      match rest with
      | v :: rest2 => nanoParseLoop { cfg with aspectRatio := some v } rest2
      | [] => nanoParseLoop { cfg with aspectRatio := none } []
    else if arg = "--model" then
      match rest with
      | v :: rest2 => nanoParseLoop { cfg with model := some v } rest2
      | [] => nanoParseLoop { cfg with model := none } []
    else if arg = "--size" then
      match rest with
      | v :: rest2 => nanoParseLoop { cfg with imageSize := some v } rest2
      | [] => nanoParseLoop { cfg with imageSize := none } []
    else if arg = "-h" ∨ arg = "--help" then Sum.inl ParseExit.helpShown
    else if arg = "--costs" then Sum.inl ParseExit.costsShown
    else if arg = "--reset-costs" then Sum.inl ParseExit.costsReset
    else if strLeads "-" arg then nanoParseLoop cfg rest
    else nanoParseLoop { cfg with prompt := arg } rest

/-- The flag spellings the nano-banana loop recognizes. -/
def nanoFlags : List String :=
  ["-o", "--output", "-i", "--input", "--aspect", "--model", "--size",
   "-h", "--help", "--costs", "--reset-costs"]

/-- Parse state of the openai-image script (initialisations of lines 134-143).
`numImagesRaw = some v` records that `-n` consumed the raw argument `v`
(`none` inside means `-n` was last and read past the end). -/
structure OaConfig where
  prompt : String := ""
  outputPath : Option String := some ""
  inputPath : Option String := some ""
  maskPath : Option String := some ""
  size : Option String := some "auto"
  model : Option String := some "gpt-image-1"
  quality : Option String := some "auto"
  format : Option String := some "png"
  transparent : Bool := false
  numImagesRaw : Option (Option String) := none
deriving DecidableEq

/-- The openai-image argument loop (lines 150-182). -/
def oaParseLoop (cfg : OaConfig) : List String → ParseExit ⊕ OaConfig
  | [] => Sum.inr cfg
  | arg :: rest =>
    if arg = "-o" ∨ arg = "--output" then
      match rest with
      | v :: rest2 => oaParseLoop { cfg with outputPath := some v } rest2
      | [] => oaParseLoop { cfg with outputPath := none } []
    else if arg = "-i" ∨ arg = "--input" then
      match rest with
      | v :: rest2 => oaParseLoop { cfg with inputPath := some v } rest2
      | [] => oaParseLoop { cfg with inputPath := none } []
    else if arg = "--mask" then
      match rest with
      | v :: rest2 => oaParseLoop { cfg with maskPath := some v } rest2
      | [] => oaParseLoop { cfg with maskPath := none } []
    else if arg = "--size" then
      match rest with
      | v :: rest2 => oaParseLoop { cfg with size := some v } rest2
      | [] => oaParseLoop { cfg with size := none } []
    else if arg = "--model" then
      match rest with
      | v :: rest2 => oaParseLoop { cfg with model := some v } rest2
      | [] => oaParseLoop { cfg with model := none } []
    else if arg = "--quality" then
      match rest with
      | v :: rest2 => oaParseLoop { cfg with quality := some v } rest2
      | [] => oaParseLoop { cfg with quality := none } []
    else if arg = "--format" then
      match rest with
      | v :: rest2 => oaParseLoop { cfg with format := some v } rest2
      | [] => oaParseLoop { cfg with format := none } []
    else if arg = "--transparent" then
      oaParseLoop { cfg with transparent := true } rest
    else if arg = "-n" then
      match rest with
      | v :: rest2 => oaParseLoop { cfg with numImagesRaw := some (some v) } rest2
      | [] => oaParseLoop { cfg with numImagesRaw := some none } []
    else if arg = "-h" ∨ arg = "--help" then Sum.inl ParseExit.helpShown
    else if arg = "--costs" then Sum.inl ParseExit.costsShown
    else if arg = "--reset-costs" then Sum.inl ParseExit.costsReset
    else if strLeads "-" arg then oaParseLoop cfg rest
    else oaParseLoop { cfg with prompt := arg } rest

/-- The flag spellings the openai-image loop recognizes. -/
def oaFlags : List String :=
  ["-o", "--output", "-i", "--input", "--mask", "--size", "--model",
   "--quality", "--format", "--transparent", "-n", "-h", "--help",
   "--costs", "--reset-costs"]

/-! ## Top-level flow of the two image-generation scripts -/

/-- Observable outcome of one script invocation: the process exit code,
whether an HTTP request to the generation API was issued, the failure
message printed to stderr (none on success), and how many image files were
written. -/
structure RunOutcome where
  exitCode : Nat
  madeRequest : Bool
  failureMsg : Option String
  savedImages : Nat
deriving DecidableEq

/-- The uniform exit convention: an invocation either exits 0 with no
failure message or exits 1 with a failure message on stderr. -/
def exitContract (o : RunOutcome) : Prop :=
  o.exitCode = 0 ∧ o.failureMsg = none
    ∨ o.exitCode = 1 ∧ (o.failureMsg).isSome = true

/-- One part of a Gemini response candidate. -/
inductive NanoPart where
  | inlineData (bytes : Buffer)
  | text (s : String)

/-- Whether a part carries image data. -/
def NanoPart.isInline : NanoPart → Bool
  | NanoPart.inlineData _ => true
  | NanoPart.text _ => false

/-- The outcome of the single `fetch` to the Gemini endpoint: the promise
rejects, the response is non-2xx, or a JSON body with a (possibly empty)
candidate list arrives; each candidate is its list of parts. -/
inductive NanoApi where
  | fetchFail (msg : String)
  | httpErr (status : Nat) (body : String)
  | ok (candidates : List (List NanoPart))

/-- Models `src/nano-banana/generate.js` after argument parsing (lines 376-561):
validations in source order, each printing to stderr and exiting 1 before any
request; then the request and response handling. `apiKey` is
`process.env.GEMINI_API_KEY`, `inputExists` models `fs.existsSync(inputPath)`,
`api` the network outcome. The source writes every `inlineData` part of the
first candidate to the output file. -/
def nanoMain (args : List String) (apiKey : Option String)
    (inputExists : Bool) (api : NanoApi) : RunOutcome :=
  match nanoParseLoop {} args with
  | Sum.inl _ => ⟨0, false, none, 0⟩
  | Sum.inr cfg =>
    if cfg.prompt = "" then
      ⟨1, false, some "Error: Prompt is required.", 0⟩
    else if ¬ jsTruthy apiKey then
      ⟨1, false, some "Error: GEMINI_API_KEY environment variable is required.", 0⟩
    else if ¬ optMem cfg.aspectRatio
        ["1:1", "16:9", "9:16", "4:3", "3:4", "3:2", "2:3", "4:5", "5:4", "21:9"] then
      ⟨1, false, some "Error: Invalid aspect ratio.", 0⟩
    else if ¬ (cfg.model = some "flash" ∨ cfg.model = some "pro") then
      ⟨1, false, some "Error: Invalid model.", 0⟩
    else if ¬ optMem cfg.imageSize ["1K", "2K", "4K"] then
      ⟨1, false, some "Error: Invalid size.", 0⟩
    else if jsTruthy cfg.inputPath ∧ ¬ inputExists then
      ⟨1, false, some "Error: Input file not found.", 0⟩
    else
      match api with
      | NanoApi.fetchFail m => ⟨1, true, some ("Error: " ++ m), 0⟩
      | NanoApi.httpErr status _ =>
        ⟨1, true, some ("Error: API request failed (HTTP " ++ toString status ++ ")"), 0⟩
      | NanoApi.ok [] => ⟨1, true, some "Error: No response generated.", 0⟩
      | NanoApi.ok (parts :: _) =>
        if parts.any NanoPart.isInline then
          ⟨0, true, none, (parts.filter NanoPart.isInline).length⟩
        else
          ⟨1, true, some "Error: No image in response.", 0⟩

/-- One element of the `data` array of the openai response: base64 payload, or a
URL (modelled with the bytes its download yields), or neither. -/
structure OaImage where
  b64 : Option Buffer
  url : Option Buffer
  revised : Option String

/-- Whether the script writes a file for this array element. -/
def OaImage.saved (im : OaImage) : Bool := im.b64.isSome || im.url.isSome

/-- The outcome of the request to the openai images endpoint. -/
inductive OaApi where
  | fetchFail (msg : String)
  | httpErr (status : Nat) (body : String)
  | ok (data : List OaImage) (usage : Option Usage)
      (dataQuality dataSize : Option String)

/-- Models `src/openai-image/generate.js` after argument parsing (lines 212-472):
validations in source order; for the edit path, the input and mask existence
checks throw inside `editImage` before its `fetch`; then response handling.
Every `data` element with a `b64_json` or `url` field is written out. -/
def oaMain (args : List String) (apiKey : Option String)
    (inputExists maskExists : Bool) (api : OaApi) : RunOutcome :=
  match oaParseLoop {} args with
  | Sum.inl _ => ⟨0, false, none, 0⟩
  | Sum.inr cfg =>
    if cfg.prompt = "" then
      ⟨1, false, some "Error: Prompt is required.", 0⟩
    else if ¬ jsTruthy apiKey then
      ⟨1, false, some "Error: OPENAI_API_KEY environment variable is required.", 0⟩
    else if ¬ optMem cfg.size ["1024x1024", "1536x1024", "1024x1536", "auto"] then
      ⟨1, false, some "Error: Invalid size.", 0⟩
    else if ¬ optMem cfg.model
        ["gpt-image-1.5", "gpt-image-1", "gpt-image-1-mini", "dall-e-3", "dall-e-2"] then
      ⟨1, false, some "Error: Invalid model.", 0⟩
    else if ¬ optMem cfg.quality ["low", "medium", "high", "auto"] then
      ⟨1, false, some "Error: Invalid quality.", 0⟩
    else if ¬ optMem cfg.format ["png", "jpeg", "webp"] then
      ⟨1, false, some "Error: Invalid format.", 0⟩
    else if cfg.transparent ∧ cfg.format = some "jpeg" then
      ⟨1, false, some "Error: Transparent background not supported with JPEG format.", 0⟩
    else if jsTruthy cfg.inputPath ∧ cfg.model = some "dall-e-3" then
      ⟨1, false,
        some "Error: DALL-E 3 does not support image editing. Use gpt-image-1 or gpt-image-1.5.", 0⟩
    else if jsTruthy cfg.inputPath ∧ ¬ inputExists then
      ⟨1, false, some "Error: Input file not found.", 0⟩
    else if jsTruthy cfg.inputPath ∧ jsTruthy cfg.maskPath ∧ ¬ maskExists then
      ⟨1, false, some "Error: Mask file not found.", 0⟩
    else
      match api with
      | OaApi.fetchFail m => ⟨1, true, some ("Error: " ++ m), 0⟩
      | OaApi.httpErr status body =>
        ⟨1, true,
          some ("Error: API request failed (HTTP " ++ toString status ++ "): " ++ body), 0⟩
      | OaApi.ok [] _ _ _ => ⟨1, true, some "Error: No images generated.", 0⟩
      | OaApi.ok (im :: ims) _ _ _ =>
        ⟨0, true, none, ((im :: ims).filter OaImage.saved).length⟩

/-! ## Helper lemmas (shared; not tied to a single claim) -/

theorem resizeLoop_attempts_le (enc : EncodeParams → Except String Buffer)
    (fmt : ImgFormat) (target : Nat) :
    ∀ fuel attempt w q last done,
      (resizeLoop enc fmt target fuel attempt w q last done).2 ≤ done + fuel := by
  intro fuel
  induction fuel with
  | zero =>
    intro attempt w q last done
    simp [resizeLoop]
  | succ n ih =>
    intro attempt w q last done
    simp only [resizeLoop]
    cases he : enc ⟨w, q, fmt, true, true⟩ with
    | error e => simp
    | ok buf =>
      by_cases hb : buf.length ≤ target
      · simp [hb]
      · simp only [hb, if_false]
        have := ih (attempt + 1) (stepWQ attempt w q).1 (stepWQ attempt w q).2
          (some buf) (done + 1)
        omega

theorem resizeLoop_step (enc : EncodeParams → Except String Buffer)
    (fmt : ImgFormat) (target fuel attempt w q : Nat) (last : Option Buffer)
    (done : Nat) (b : Buffer) (he : enc ⟨w, q, fmt, true, true⟩ = Except.ok b)
    (hb : target < b.length) :
    resizeLoop enc fmt target (fuel + 1) attempt w q last done
      = resizeLoop enc fmt target fuel (attempt + 1) (stepWQ attempt w q).1
          (stepWQ attempt w q).2 (some b) (done + 1) := by
  simp only [resizeLoop, he]
  rw [if_neg (Nat.not_le.mpr hb)]

theorem trimHistory_length_le {α : Type} (h : List α) :
    (trimHistory h).length ≤ 100 := by
  unfold trimHistory
  split
  · simp only [List.length_drop]
    omega
  · omega

theorem decB64_encB64 (l : Buffer) (h : ∀ b ∈ l, b < 256) :
    decB64 (encB64 l) = l := by
  induction l using encB64.induct with
  | case1 => rfl
  | case2 b1 =>
    simp only [encB64, decB64, List.cons.injEq, and_true]
    omega
  | case3 b1 b2 =>
    have h2 : b2 < 256 := h b2 (by simp)
    simp only [encB64, decB64, List.cons.injEq, and_true]
    constructor
    · omega
    · omega
  | case4 b1 b2 b3 rest ih =>
    have h2 : b2 < 256 := h b2 (by simp)
    have h3 : b3 < 256 := h b3 (by simp)
    have ih2 := ih (fun b hb => h b (by simp [hb]))
    simp only [encB64, decB64, ih2, List.cons.injEq, and_true]
    refine ⟨by omega, by omega, by omega⟩

/-! ## Claim theorems -/

/-- C4: for every input image (encoder behaviour), Sharp availability and
target size, `resizeImageToFitSize` performs at most 8 re-encoding attempts
before returning a buffer or throwing. -/
theorem resize_at_most_eight_attempts (sharpAvailable : Bool)
    (enc : EncodeParams → Except String Buffer) (ext : String)
    (targetSizeKB : Nat) :
    (resizeImageToFitSize sharpAvailable enc ext targetSizeKB).2 ≤ 8 := by
  unfold resizeImageToFitSize
  split
  · exact resizeLoop_attempts_le enc (chooseFormat ext) (targetSizeKB * 1024)
      8 0 800 80 none 0
  · simp

/-- C2 (counterexample): for the unknown extension `.bmp` the re-encoding is
JPEG, but the MIME type used in the data URI is `application/octet-stream`,
not the JPEG type `image/jpeg` the claim asserts. -/
theorem mime_unknown_ext_counterexample :
    chooseFormat ".bmp" = ImgFormat.jpeg ∧
    mimeType ".bmp" ≠ "image/jpeg" ∧
    mimeType ".bmp" = "application/octet-stream" := by
  refine ⟨by decide, by decide, by decide⟩

/-- C2 (amended): the output encoding is chosen by the input extension
(`.png`, `.jpg`/`.jpeg`, `.webp` keep their format, everything else is
re-encoded as JPEG), and the MIME type follows the fixed table of
`fileToBase64DataUri`, with every extension outside the table mapping to
`application/octet-stream` (not to the JPEG type). -/
theorem format_follows_extension :
    chooseFormat ".png" = ImgFormat.png ∧
    chooseFormat ".jpg" = ImgFormat.jpeg ∧
    chooseFormat ".jpeg" = ImgFormat.jpeg ∧
    chooseFormat ".webp" = ImgFormat.webp ∧
    (∀ ext, ext ∉ [".png", ".jpg", ".jpeg", ".webp"] →
      chooseFormat ext = ImgFormat.jpeg) ∧
    mimeType ".png" = "image/png" ∧
    mimeType ".jpg" = "image/jpeg" ∧
    mimeType ".jpeg" = "image/jpeg" ∧
    mimeType ".gif" = "image/gif" ∧
    mimeType ".webp" = "image/webp" ∧
    mimeType ".svg" = "image/svg+xml" ∧
    (∀ ext, ext ∉ [".png", ".jpg", ".jpeg", ".gif", ".webp", ".svg"] →
      mimeType ext = "application/octet-stream") := by
  refine ⟨by decide, by decide, by decide, by decide, ?_, by decide, by decide,
    by decide, by decide, by decide, by decide, ?_⟩
  · intro ext hm
    simp only [List.mem_cons, List.not_mem_nil, or_false, not_or] at hm
    obtain ⟨h1, h2, h3, h4⟩ := hm
    simp [chooseFormat, h1, h2, h3, h4]
  · intro ext hm
    simp only [List.mem_cons, List.not_mem_nil, or_false, not_or] at hm
    obtain ⟨h1, h2, h3, h4, h5, h6⟩ := hm
    simp [mimeType, h1, h2, h3, h4, h5, h6]

/-- C2 (witness): the amended unknown-extension clauses evaluated at
`.tiff`. -/
theorem format_follows_extension_witness :
    chooseFormat ".tiff" = ImgFormat.jpeg ∧
    mimeType ".tiff" = "application/octet-stream" :=
  ⟨format_follows_extension.2.2.2.2.1 ".tiff" (by decide),
   format_follows_extension.2.2.2.2.2.2.2.2.2.2.2 ".tiff" (by decide)⟩

/-- C7: a file whose byte size is at most the 90 KB budget is embedded
as-is: no resize attempt runs, the base64 payload of the data URI is the
encoding of the original bytes, and that payload decodes back to exactly
the original contents. -/
theorem small_file_embedded_unchanged (sharpAvailable : Bool)
    (enc : EncodeParams → Except String Buffer) (sizeBytes : Nat)
    (content : Buffer) (ext sizeDisplay : String)
    (hsize : sizeBytes ≤ 90 * 1024) (hbytes : ∀ b ∈ content, b < 256) :
    fileToBase64DataUri sharpAvailable enc sizeBytes content ext sizeDisplay
      = (Except.ok ⟨mimeType ext, encB64 content⟩, 0) ∧
    decB64 (encB64 content) = content := by
  constructor
  · unfold fileToBase64DataUri
    rw [if_pos hsize]
  · exact decB64_encB64 content hbytes

/-- C7 (witness): a 100-byte file is embedded unchanged. -/
theorem small_file_embedded_unchanged_witness :
    fileToBase64DataUri true (fun _ => Except.ok []) 100 [7, 200] ".png" "0.0"
      = (Except.ok ⟨"image/png", encB64 [7, 200]⟩, 0) ∧
    decB64 (encB64 [7, 200]) = [7, 200] :=
  small_file_embedded_unchanged true (fun _ => Except.ok []) 100 [7, 200]
    ".png" "0.0" (by norm_num) (by decide)

/-- C8: when Sharp cannot be imported and the file exceeds the 90 KB budget,
`fileToBase64DataUri` fails without performing a single resize attempt, and
its error message contains the manual-resize instructions: install Sharp,
resize to smaller dimensions, or host externally. -/
theorem sharp_missing_fallback (enc : EncodeParams → Except String Buffer)
    (sizeBytes : Nat) (content : Buffer) (ext sizeDisplay : String)
    (hsize : 90 * 1024 < sizeBytes) :
    fileToBase64DataUri false enc sizeBytes content ext sizeDisplay
      = (Except.error
          ("Failed to convert file to base64: " ++ sharpInstallMsg sizeDisplay), 0) ∧
    (∃ pre post, (sharpInstallMsg sizeDisplay).data
      = pre ++ "npm install sharp".data ++ post) ∧
    (∃ pre post, (sharpInstallMsg sizeDisplay).data
      = pre ++ "Resize image to smaller dimensions".data ++ post) ∧
    (∃ pre post, (sharpInstallMsg sizeDisplay).data
      = pre ++ "Host externally".data ++ post) := by
  refine ⟨?_, ?_, ?_, ?_⟩
  · unfold fileToBase64DataUri
    rw [if_neg (Nat.not_le.mpr hsize)]
    simp [resizeImageToFitSize]
  · exact ⟨(sharpMsgPre sizeDisplay).data, sharpMsgPost.data,
      by simp [sharpInstallMsg, String.data_append]⟩
  · exact ⟨(sharpMsgPre sizeDisplay).data ++ "npm install sharp".data
        ++ "\n\nOr manually:\n1. ".data,
      ("  \n2. " ++ "Host externally"
        ++ " and use --attachment \"https://url\"\n3. Or manually drag and drop in Linear web interface").data,
      by simp [sharpInstallMsg, sharpMsgPost, String.data_append]⟩
  · exact ⟨(sharpMsgPre sizeDisplay).data ++ "npm install sharp".data
        ++ "\n\nOr manually:\n1. ".data ++ "Resize image to smaller dimensions".data
        ++ "  \n2. ".data,
      (" and use --attachment \"https://url\"\n3. Or manually drag and drop in Linear web interface").data,
      by simp [sharpInstallMsg, sharpMsgPost, String.data_append]⟩

/-- C8 (witness): the Sharp-missing fallback evaluated at a 100 KB file. -/
theorem sharp_missing_fallback_witness :
    fileToBase64DataUri false (fun _ => Except.ok []) 102400 [1] ".png" "0.1"
      = (Except.error
          ("Failed to convert file to base64: " ++ sharpInstallMsg "0.1"), 0) :=
  (sharp_missing_fallback (fun _ => Except.ok []) 102400 [1] ".png" "0.1"
    (by norm_num)).1

theorem runNano_totals_aux {α : Type} (gens : List (ℚ × α)) :
    ∀ st : Ledger α,
      (gens.foldl (fun st g => nanoRecordGeneration g.1 g.2 st) st).totalCost
        = st.totalCost + (gens.map Prod.fst).sum ∧
      (gens.foldl (fun st g => nanoRecordGeneration g.1 g.2 st) st).imageCount
        = st.imageCount + gens.length := by
  induction gens with
  | nil => intro st; simp
  | cons g gs ih =>
    intro st
    obtain ⟨hc, hn⟩ := ih (nanoRecordGeneration g.1 g.2 st)
    refine ⟨?_, ?_⟩
    · simp only [List.foldl_cons]
      rw [hc]
      simp only [nanoRecordGeneration, List.map_cons, List.sum_cons]
      ring
    · simp only [List.foldl_cons]
      rw [hn]
      simp only [nanoRecordGeneration, List.length_cons]
      omega

theorem runOpenai_totals_aux {α : Type} (gens : List (ℚ × Nat × α)) :
    ∀ st : Ledger α,
      (gens.foldl (fun st g => openaiRecordGeneration g.1 g.2.1 g.2.2 st) st).totalCost
        = st.totalCost + (gens.map Prod.fst).sum ∧
      (gens.foldl (fun st g => openaiRecordGeneration g.1 g.2.1 g.2.2 st) st).imageCount
        = st.imageCount + (gens.map (fun g => g.2.1)).sum := by
  induction gens with
  | nil => intro st; simp
  | cons g gs ih =>
    intro st
    obtain ⟨hc, hn⟩ := ih (openaiRecordGeneration g.1 g.2.1 g.2.2 st)
    refine ⟨?_, ?_⟩
    · simp only [List.foldl_cons]
      rw [hc]
      simp only [openaiRecordGeneration, List.map_cons, List.sum_cons]
      ring
    · simp only [List.foldl_cons]
      rw [hn]
      simp only [openaiRecordGeneration, List.map_cons, List.sum_cons]
      omega

/-- C3 (counterexample): one successful openai-image invocation that saves
two images (the response data array has two entries, as with `-n 2`) leaves
`imageCount = 2` after a fresh reset, not `1` as the claim ("imageCount
equals N" after N invocations) requires. The per-call cost used is the
DALL-E 3 standard price of two 1024x1024 images. -/
theorem ledger_count_counterexample :
    (runOpenaiGenerations
        [(getDalleCost "dall-e-3" (some "standard") (some "1024x1024") 2, 2, ())]).imageCount
      = 2 ∧ (2 : Nat) ≠ 1 := by
  constructor
  · rfl
  · decide

/-- C3 (amended): from a freshly reset ledger, after N successful generation
invocations with known per-call costs, `totalCost` is the sum of the N costs;
`imageCount` equals the total number of images saved — which is N for
nano-banana, whose invocations each count one image, and the sum of the
per-invocation saved-image counts for openai-image; after a reset-costs
invocation, `totalCost` is 0, `imageCount` is 0, and `history` is empty. -/
theorem ledger_totals :
    (∀ (α : Type) (gens : List (ℚ × α)),
      (runNanoGenerations gens).totalCost = (gens.map Prod.fst).sum ∧
      (runNanoGenerations gens).imageCount = gens.length) ∧
    (∀ (α : Type) (gens : List (ℚ × Nat × α)),
      (runOpenaiGenerations gens).totalCost = (gens.map Prod.fst).sum ∧
      (runOpenaiGenerations gens).imageCount = (gens.map (fun g => g.2.1)).sum) ∧
    (∀ (α : Type) (st : Ledger α),
      (resetCosts st).totalCost = 0 ∧ (resetCosts st).imageCount = 0 ∧
      (resetCosts st).history = []) := by
  refine ⟨?_, ?_, ?_⟩
  · intro α gens
    have h := runNano_totals_aux gens resetLedgerData
    simpa [runNanoGenerations, resetLedgerData] using h
  · intro α gens
    have h := runOpenai_totals_aux gens resetLedgerData
    simpa [runOpenaiGenerations, resetLedgerData] using h
  · intro α st
    exact ⟨rfl, rfl, rfl⟩

theorem getGenerationCost_nonneg (model : String) (imageSize : Option String) :
    0 ≤ getGenerationCost model imageSize := by
  unfold getGenerationCost
  split
  · norm_num
  · split <;> norm_num

theorem getDalleCost_nonneg (model : String) (quality size : Option String)
    (n : Nat) : 0 ≤ getDalleCost model quality size n := by
  simp only [getDalleCost]
  repeat' split
  all_goals positivity

theorem tokenPricing_rates_nonneg (model : String) (p : TokenPricing)
    (h : tokenPricing model = some p) :
    0 ≤ p.inputRate ∧ 0 ≤ p.low ∧ 0 ≤ p.medium ∧ 0 ≤ p.high ∧ 0 ≤ p.auto := by
  unfold tokenPricing at h
  repeat' split at h
  all_goals
    first
      | (injection h with h; subst h; norm_num)
      | exact Option.noConfusion h

theorem calculateCostFromUsage_getD_nonneg (model : String)
    (quality : Option String) (usage : Usage) :
    0 ≤ (calculateCostFromUsage model quality usage).getD 0 := by
  unfold calculateCostFromUsage
  cases h : tokenPricing model with
  | none => simp
  | some p =>
    obtain ⟨h1, h2, h3, h4, h5⟩ := tokenPricing_rates_nonneg model p h
    have hr : 0 ≤ outputRate p quality := by
      unfold outputRate
      split <;> assumption
    simp only [Option.getD_some]
    have hin : (0 : ℚ) ≤ (usage.input_tokens : ℚ) / 1000000 :=
      div_nonneg (Nat.cast_nonneg _) (by norm_num)
    have hout : (0 : ℚ) ≤ (usage.output_tokens : ℚ) / 1000000 :=
      div_nonneg (Nat.cast_nonneg _) (by norm_num)
    exact add_nonneg (mul_nonneg hin h1) (mul_nonneg hout hr)

theorem openaiGenerationCost_nonneg (model : String)
    (dataQuality quality : Option String) (usage : Option Usage)
    (dataSize size : Option String) (numSaved : Nat) :
    0 ≤ openaiGenerationCost model dataQuality quality usage dataSize size numSaved := by
  unfold openaiGenerationCost
  split
  · split
    · exact getDalleCost_nonneg ..
    · exact calculateCostFromUsage_getD_nonneg ..
  · exact getDalleCost_nonneg ..

/-- C6: a successful generation of either skill never decreases `totalCost`
or `imageCount` of the ledger it writes back, and leaves a history of at
most 100 entries, for every prior ledger state and every model, quality,
size, and usage combination the scripts can feed into the pricing
functions. -/
theorem ledger_invariants :
    (∀ (α : Type) (st : Ledger α) (model : String) (imageSize : Option String)
        (e : α),
      st.totalCost
          ≤ (nanoRecordGeneration (getGenerationCost model imageSize) e st).totalCost ∧
      st.imageCount
          ≤ (nanoRecordGeneration (getGenerationCost model imageSize) e st).imageCount ∧
      (nanoRecordGeneration (getGenerationCost model imageSize) e st).history.length
          ≤ 100) ∧
    (∀ (α : Type) (st : Ledger α) (model : String)
        (dataQuality quality : Option String) (usage : Option Usage)
        (dataSize size : Option String) (numSaved : Nat) (e : α),
      st.totalCost
          ≤ (openaiRecordGeneration
              (openaiGenerationCost model dataQuality quality usage dataSize size numSaved)
              numSaved e st).totalCost ∧
      st.imageCount
          ≤ (openaiRecordGeneration
              (openaiGenerationCost model dataQuality quality usage dataSize size numSaved)
              numSaved e st).imageCount ∧
      (openaiRecordGeneration
          (openaiGenerationCost model dataQuality quality usage dataSize size numSaved)
          numSaved e st).history.length ≤ 100) := by
  constructor
  · intro α st model imageSize e
    refine ⟨?_, ?_, ?_⟩
    · simpa [nanoRecordGeneration] using getGenerationCost_nonneg model imageSize
    · simp [nanoRecordGeneration]
    · exact trimHistory_length_le _
  · intro α st model dataQuality quality usage dataSize size numSaved e
    refine ⟨?_, ?_, ?_⟩
    · simpa [openaiRecordGeneration] using
        openaiGenerationCost_nonneg model dataQuality quality usage dataSize size numSaved
    · simp [openaiRecordGeneration]
    · exact trimHistory_length_le _

/-- C5: the resize schedule — attempt 0 uses width 800 and quality 80 with
`fit: inside` and `withoutEnlargement`; a failed attempt among the first four
multiplies the width by 0.8 (floored) keeping quality; a later failed attempt
multiplies the width by 0.9 (floored) and lowers quality by 15 points with a
floor of 30; a first attempt already within budget is returned at once and a
failed attempt hands the stepped parameters to the next iteration. -/
theorem resize_schedule :
    attemptWQ 0 = (800, 80) ∧
    (∀ k, k < 4 → attemptWQ (k + 1)
      = ((attemptWQ k).1 * 8 / 10, (attemptWQ k).2)) ∧
    (∀ k, 4 ≤ k → attemptWQ (k + 1)
      = ((attemptWQ k).1 * 9 / 10, max 30 ((attemptWQ k).2 - 15))) ∧
    (∀ (enc : EncodeParams → Except String Buffer) (ext : String)
        (targetSizeKB : Nat) (b : Buffer),
      enc ⟨800, 80, chooseFormat ext, true, true⟩ = Except.ok b →
      b.length ≤ targetSizeKB * 1024 →
      resizeImageToFitSize true enc ext targetSizeKB = (Except.ok b, 1)) ∧
    (∀ (enc : EncodeParams → Except String Buffer) (fmt : ImgFormat)
        (target fuel attempt w q : Nat) (last : Option Buffer) (done : Nat)
        (b : Buffer),
      enc ⟨w, q, fmt, true, true⟩ = Except.ok b → target < b.length →
      resizeLoop enc fmt target (fuel + 1) attempt w q last done
        = resizeLoop enc fmt target fuel (attempt + 1) (stepWQ attempt w q).1
            (stepWQ attempt w q).2 (some b) (done + 1)) := by
  refine ⟨rfl, ?_, ?_, ?_, ?_⟩
  · intro k hk
    simp [attemptWQ, stepWQ, hk]
  · intro k hk
    simp [attemptWQ, stepWQ, Nat.not_lt.mpr hk]
  · intro enc ext targetSizeKB b he hb
    unfold resizeImageToFitSize
    rw [if_pos rfl]
    simp only [resizeLoop, he]
    rw [if_pos hb]
  · intro enc fmt target fuel attempt w q last done b he hb
    exact resizeLoop_step enc fmt target fuel attempt w q last done b he hb

/-- C5 (witness): an encoder whose first attempt fits a 90 KB budget makes
`resizeImageToFitSize` return that first buffer after one attempt. -/
theorem resize_schedule_witness :
    resizeImageToFitSize true (fun _ => Except.ok [1, 2, 3]) ".png" 90
      = (Except.ok [1, 2, 3], 1) :=
  resize_schedule.2.2.2.1 (fun _ => Except.ok [1, 2, 3]) ".png" 90 [1, 2, 3]
    rfl (by norm_num)

/-- C1 (counterexample): with a zero-KB budget every attempt of `encEx` is
over budget, the sixth-indexed attempt (width 264, quality 50) produced a
2-byte buffer, yet the function returns the 3-byte buffer of the last
attempt — not the smallest buffer obtained. -/
theorem resize_last_not_smallest :
    (resizeImageToFitSize true encEx ".png" 0).1
      = Except.ok (List.replicate 3 0) ∧
    attemptWQ 6 = (264, 50) ∧
    encEx ⟨264, 50, ImgFormat.png, true, true⟩
      = Except.ok (List.replicate 2 0) ∧
    (List.replicate 2 (0 : Nat)).length < (List.replicate 3 (0 : Nat)).length := by
  refine ⟨rfl, by decide, rfl, by decide⟩

/-- C1 (amended): when all 8 attempts produce buffers above the byte budget,
`resizeImageToFitSize` does not fail — it returns the buffer of the eighth
(final) attempt, i.e. the encoding at the last width/quality of the
schedule, which need not be the smallest of the attempts. -/
theorem resize_returns_last_attempt
    (enc : EncodeParams → Except String Buffer) (ext : String)
    (targetSizeKB : Nat)
    (h : ∀ k, k < 8 → ∃ b,
      enc ⟨(attemptWQ k).1, (attemptWQ k).2, chooseFormat ext, true, true⟩
          = Except.ok b ∧
        targetSizeKB * 1024 < b.length) :
    (resizeImageToFitSize true enc ext targetSizeKB).1
      = enc ⟨(attemptWQ 7).1, (attemptWQ 7).2, chooseFormat ext, true, true⟩ := by
  obtain ⟨b0, e0, l0⟩ := h 0 (by norm_num)
  obtain ⟨b1, e1, l1⟩ := h 1 (by norm_num)
  obtain ⟨b2, e2, l2⟩ := h 2 (by norm_num)
  obtain ⟨b3, e3, l3⟩ := h 3 (by norm_num)
  obtain ⟨b4, e4, l4⟩ := h 4 (by norm_num)
  obtain ⟨b5, e5, l5⟩ := h 5 (by norm_num)
  obtain ⟨b6, e6, l6⟩ := h 6 (by norm_num)
  obtain ⟨b7, e7, l7⟩ := h 7 (by norm_num)
  norm_num [attemptWQ, stepWQ] at e0 e1 e2 e3 e4 e5 e6 e7
  unfold resizeImageToFitSize
  rw [if_pos rfl]
  have s0 := resizeLoop_step enc (chooseFormat ext) (targetSizeKB * 1024)
    7 0 800 80 none 0 b0 e0 l0
  have s1 := resizeLoop_step enc (chooseFormat ext) (targetSizeKB * 1024)
    6 1 640 80 (some b0) 1 b1 e1 l1
  have s2 := resizeLoop_step enc (chooseFormat ext) (targetSizeKB * 1024)
    5 2 512 80 (some b1) 2 b2 e2 l2
  have s3 := resizeLoop_step enc (chooseFormat ext) (targetSizeKB * 1024)
    4 3 409 80 (some b2) 3 b3 e3 l3
  have s4 := resizeLoop_step enc (chooseFormat ext) (targetSizeKB * 1024)
    3 4 327 80 (some b3) 4 b4 e4 l4
  have s5 := resizeLoop_step enc (chooseFormat ext) (targetSizeKB * 1024)
    2 5 294 65 (some b4) 5 b5 e5 l5
  have s6 := resizeLoop_step enc (chooseFormat ext) (targetSizeKB * 1024)
    1 6 264 50 (some b5) 6 b6 e6 l6
  have s7 := resizeLoop_step enc (chooseFormat ext) (targetSizeKB * 1024)
    0 7 237 35 (some b6) 7 b7 e7 l7
  norm_num [stepWQ] at s0 s1 s2 s3 s4 s5 s6 s7
  rw [s0, s1, s2, s3, s4, s5, s6, s7]
  simp only [resizeLoop]
  norm_num [attemptWQ, stepWQ]
  exact e7.symm

/-- C1 (amended, witness): a constant always-too-big encoder makes the
routine return that encoding rather than fail. -/
theorem resize_returns_last_attempt_witness :
    (resizeImageToFitSize true (fun _ => Except.ok [9]) ".png" 0).1
      = Except.ok [9] :=
  resize_returns_last_attempt (fun _ => Except.ok [9]) ".png" 0
    (fun _ _ => ⟨[9], rfl, by norm_num⟩)

theorem runOutcome_ite {c : Prop} [Decidable c] (P : RunOutcome → Prop)
    (a b : RunOutcome) (ha : P a) (hb : P b) : P (if c then a else b) := by
  split
  · exact ha
  · exact hb

theorem nanoParse_flagPos_skip (cfg : NanoConfig) (rest : List String)
    (unk : String) (hd : strLeads "-" unk = true) (hm : unk ∉ nanoFlags) :
    nanoParseLoop cfg (unk :: rest) = nanoParseLoop cfg rest := by
  simp only [nanoFlags, List.mem_cons, List.not_mem_nil, or_false, not_or] at hm
  obtain ⟨h1, h2, h3, h4, h5, h6, h7, h8, h9, h10, h11⟩ := hm
  rw [nanoParseLoop.eq_def]
  simp only [h1, h2, h3, h4, h5, h6, h7, h8, h9, h10, h11, hd, or_self,
    if_false, if_true, ite_true, ite_false, or_false, false_or]

theorem oaParse_flagPos_skip (cfg : OaConfig) (rest : List String)
    (unk : String) (hd : strLeads "-" unk = true) (hm : unk ∉ oaFlags) :
    oaParseLoop cfg (unk :: rest) = oaParseLoop cfg rest := by
  simp only [oaFlags, List.mem_cons, List.not_mem_nil, or_false, not_or] at hm
  obtain ⟨h1, h2, h3, h4, h5, h6, h7, h8, h9, h10, h11, h12, h13, h14, h15⟩ := hm
  rw [oaParseLoop.eq_def]
  simp only [h1, h2, h3, h4, h5, h6, h7, h8, h9, h10, h11, h12, h13, h14, h15,
    hd, or_self, if_false, if_true, ite_true, ite_false, or_false, false_or]

theorem nanoParse_prompt_origin :
    ∀ (cfg : NanoConfig) (args : List String) (out : NanoConfig),
      nanoParseLoop cfg args = Sum.inr out →
      strLeads "-" out.prompt = false ∨ out.prompt = cfg.prompt := by
  intro cfg args
  induction cfg, args using nanoParseLoop.induct <;>
    (intro out h
     rw [nanoParseLoop.eq_def] at h
     simp only [*, if_true, if_false, ite_true, ite_false] at h) <;>
    first
      | exact Sum.noConfusion h
      | (injection h with h; subst h; right; rfl)
      | (rename_i ih
         rcases ih out h with h1 | h2
         · exact Or.inl h1
         · first
             | (right; exact h2)
             | (left; rw [h2]; simp_all))

theorem oaParse_prompt_origin :
    ∀ (cfg : OaConfig) (args : List String) (out : OaConfig),
      oaParseLoop cfg args = Sum.inr out →
      strLeads "-" out.prompt = false ∨ out.prompt = cfg.prompt := by
  intro cfg args
  induction cfg, args using oaParseLoop.induct <;>
    (intro out h
     rw [oaParseLoop.eq_def] at h
     simp only [*, if_true, if_false, ite_true, ite_false] at h) <;>
    first
      | exact Sum.noConfusion h
      | (injection h with h; subst h; right; rfl)
      | (rename_i ih
         rcases ih out h with h1 | h2
         · exact Or.inl h1
         · first
             | (right; exact h2)
             | (left; rw [h2]; simp_all))

/-- C10 (counterexample): the dash argument `--xyz` is not a recognized flag
of the nano-banana script, yet parsing `["-o", "--xyz"]` is not the same as
parsing `["-o"]` with it removed: in the first list it is consumed as the
value of `-o` and lands in `outputPath`. -/
theorem dash_value_counterexample :
    strLeads "-" "--xyz" = true ∧
    "--xyz" ∉ nanoFlags ∧
    nanoParseLoop {} ["-o", "--xyz"]
      = Sum.inr { outputPath := some "--xyz" } ∧
    nanoParseLoop {} ["-o"] = Sum.inr { outputPath := none } ∧
    nanoParseLoop {} ["-o", "--xyz"] ≠ nanoParseLoop {} ["-o"] := by
  refine ⟨by decide, by decide, by decide, by decide, by decide⟩

/-- C10 (amended): a dash argument that is not a recognized flag is silently
ignored when it is scanned in flag position — parsing `unk :: rest` gives
exactly the parse of `rest`, for both scripts — but when it immediately
follows a value-taking flag it is consumed as the value of that flag instead
(shown for `-o`); in either case a dash argument never ends up as the
prompt: the prompt of any parse result either starts without a dash or is the
prompt the parse started from. -/
theorem unknown_dash_arg_ignored :
    (∀ (cfg : NanoConfig) (rest : List String) (unk : String),
      strLeads "-" unk = true → unk ∉ nanoFlags →
      nanoParseLoop cfg (unk :: rest) = nanoParseLoop cfg rest) ∧
    (∀ (cfg : OaConfig) (rest : List String) (unk : String),
      strLeads "-" unk = true → unk ∉ oaFlags →
      oaParseLoop cfg (unk :: rest) = oaParseLoop cfg rest) ∧
    (∀ (cfg : NanoConfig) (v : String) (rest : List String),
      nanoParseLoop cfg ("-o" :: v :: rest)
        = nanoParseLoop { cfg with outputPath := some v } rest) ∧
    (∀ (cfg : NanoConfig) (args : List String) (out : NanoConfig),
      nanoParseLoop cfg args = Sum.inr out →
      strLeads "-" out.prompt = false ∨ out.prompt = cfg.prompt) ∧
    (∀ (cfg : OaConfig) (args : List String) (out : OaConfig),
      oaParseLoop cfg args = Sum.inr out →
      strLeads "-" out.prompt = false ∨ out.prompt = cfg.prompt) := by
  refine ⟨nanoParse_flagPos_skip, oaParse_flagPos_skip, ?_,
    nanoParse_prompt_origin, oaParse_prompt_origin⟩
  intro cfg v rest
  rw [nanoParseLoop.eq_def]
  simp

/-- C10 (witness): `--verbose` is skipped in flag position. -/
theorem unknown_dash_arg_ignored_witness :
    nanoParseLoop {} ["--verbose", "hello"] = nanoParseLoop {} ["hello"] :=
  unknown_dash_arg_ignored.1 {} ["hello"] "--verbose" (by decide) (by decide)

/-- C9: an invocation of either image-generation script with an empty prompt
or a falsy API-key environment variable prints its requirement message and
exits with code 1 without making any API request; and, over all inputs, an
invocation either exits 0 with no failure message or exits 1 with a failure
message on stderr. -/
theorem cli_error_contract :
    (∀ (args : List String) (key : Option String) (ie : Bool) (api : NanoApi)
        (cfg : NanoConfig),
      nanoParseLoop {} args = Sum.inr cfg → cfg.prompt = "" →
      nanoMain args key ie api
        = ⟨1, false, some "Error: Prompt is required.", 0⟩) ∧
    (∀ (args : List String) (key : Option String) (ie : Bool) (api : NanoApi)
        (cfg : NanoConfig),
      nanoParseLoop {} args = Sum.inr cfg → cfg.prompt ≠ "" →
      jsTruthy key = false →
      nanoMain args key ie api
        = ⟨1, false, some "Error: GEMINI_API_KEY environment variable is required.", 0⟩) ∧
    (∀ (args : List String) (key : Option String) (ie : Bool) (api : NanoApi),
      exitContract (nanoMain args key ie api)) ∧
    (∀ (args : List String) (key : Option String) (ie me : Bool) (api : OaApi)
        (cfg : OaConfig),
      oaParseLoop {} args = Sum.inr cfg → cfg.prompt = "" →
      oaMain args key ie me api
        = ⟨1, false, some "Error: Prompt is required.", 0⟩) ∧
    (∀ (args : List String) (key : Option String) (ie me : Bool) (api : OaApi)
        (cfg : OaConfig),
      oaParseLoop {} args = Sum.inr cfg → cfg.prompt ≠ "" →
      jsTruthy key = false →
      oaMain args key ie me api
        = ⟨1, false, some "Error: OPENAI_API_KEY environment variable is required.", 0⟩) ∧
    (∀ (args : List String) (key : Option String) (ie me : Bool) (api : OaApi),
      exitContract (oaMain args key ie me api)) := by
  refine ⟨?_, ?_, ?_, ?_, ?_, ?_⟩
  · intro args key ie api cfg hp hpr
    simp only [nanoMain, hp]
    rw [if_pos hpr]
  · intro args key ie api cfg hp hpr hk
    simp only [nanoMain, hp]
    rw [if_neg hpr, if_pos (by simp [hk])]
  · intro args key ie api
    unfold nanoMain
    cases hp : nanoParseLoop {} args with
    | inl e => exact Or.inl ⟨rfl, rfl⟩
    | inr cfg =>
      refine runOutcome_ite exitContract _ _ (Or.inr ⟨rfl, rfl⟩) ?_
      refine runOutcome_ite exitContract _ _ (Or.inr ⟨rfl, rfl⟩) ?_
      refine runOutcome_ite exitContract _ _ (Or.inr ⟨rfl, rfl⟩) ?_
      refine runOutcome_ite exitContract _ _ (Or.inr ⟨rfl, rfl⟩) ?_
      refine runOutcome_ite exitContract _ _ (Or.inr ⟨rfl, rfl⟩) ?_
      refine runOutcome_ite exitContract _ _ (Or.inr ⟨rfl, rfl⟩) ?_
      cases api with
      | fetchFail m => exact Or.inr ⟨rfl, rfl⟩
      | httpErr s b => exact Or.inr ⟨rfl, rfl⟩
      | ok cands =>
        cases cands with
        | nil => exact Or.inr ⟨rfl, rfl⟩
        | cons parts more =>
          exact runOutcome_ite exitContract _ _ (Or.inl ⟨rfl, rfl⟩) (Or.inr ⟨rfl, rfl⟩)
  · intro args key ie me api cfg hp hpr
    simp only [oaMain, hp]
    rw [if_pos hpr]
  · intro args key ie me api cfg hp hpr hk
    simp only [oaMain, hp]
    rw [if_neg hpr, if_pos (by simp [hk])]
  · intro args key ie me api
    unfold oaMain
    cases hp : oaParseLoop {} args with
    | inl e => exact Or.inl ⟨rfl, rfl⟩
    | inr cfg =>
      refine runOutcome_ite exitContract _ _ (Or.inr ⟨rfl, rfl⟩) ?_
      refine runOutcome_ite exitContract _ _ (Or.inr ⟨rfl, rfl⟩) ?_
      refine runOutcome_ite exitContract _ _ (Or.inr ⟨rfl, rfl⟩) ?_
      refine runOutcome_ite exitContract _ _ (Or.inr ⟨rfl, rfl⟩) ?_
      refine runOutcome_ite exitContract _ _ (Or.inr ⟨rfl, rfl⟩) ?_
      refine runOutcome_ite exitContract _ _ (Or.inr ⟨rfl, rfl⟩) ?_
      refine runOutcome_ite exitContract _ _ (Or.inr ⟨rfl, rfl⟩) ?_
      refine runOutcome_ite exitContract _ _ (Or.inr ⟨rfl, rfl⟩) ?_
      refine runOutcome_ite exitContract _ _ (Or.inr ⟨rfl, rfl⟩) ?_
      refine runOutcome_ite exitContract _ _ (Or.inr ⟨rfl, rfl⟩) ?_
      cases api with
      | fetchFail m => exact Or.inr ⟨rfl, rfl⟩
      | httpErr s b => exact Or.inr ⟨rfl, rfl⟩
      | ok data u dq ds =>
        cases data with
        | nil => exact Or.inr ⟨rfl, rfl⟩
        | cons im ims => exact Or.inl ⟨rfl, rfl⟩

/-- C9 (witness): the empty argument list yields an empty prompt, so the
nano-banana script exits 1 with the prompt-required message and no request. -/
theorem cli_error_contract_witness :
    nanoMain [] none true (NanoApi.ok [])
      = ⟨1, false, some "Error: Prompt is required.", 0⟩ :=
  cli_error_contract.1 [] none true (NanoApi.ok []) {} rfl rfl

end PiSkills
